import Mathlib

/-!
Shallow embedding of `hpxml_to_hescore.py` (HPXML to Home Energy Score
translator).  Python floats are modelled as rationals (`ℚ`); all numeric
literals in the tables below have exact decimal values, and every comparison
proved about them is strict by a margin far exceeding double-precision
rounding error, so the rational model agrees with the float execution on
every statement in this file.  Python ints are `ℤ`; Python dicts keyed by a
known finite set are association lists or functions; `None`-able values are
`Option`; code paths that raise exceptions return `Except`/`Option`.
-/

namespace HesTranslate

/-- Python `abs` on a number (used inside `min(..., key=abs(x - y))` calls). -/
def absQ (q : ℚ) : ℚ := if q < 0 then -q else q

/-- Python 2 `round` to the nearest integer, halves away from zero
(`round(x)` followed by `int(...)`). -/
def pyRound (q : ℚ) : ℤ := if q < 0 then -⌊-q + 1/2⌋ else ⌊q + 1/2⌋

/-- Python 2 `round(x, d)`: round to `d` decimal places, halves away from
zero. -/
def pyRoundTo (d : ℕ) (q : ℚ) : ℚ := (pyRound (q * 10 ^ d) : ℚ) / 10 ^ d

/-- Embeds `round_to_nearest(x, vals)` = `min(vals, key=lambda y: abs(x - y))`
(lines 76-77), as CPython computes it: scan left to right keeping the
current best, replacing it only on a strictly smaller distance, so the
first element at minimal distance wins.  `min` of an empty sequence raises;
every call site passes a non-empty literal tuple, so the `[]` case of
`round_to_nearest` is arbitrary. -/
def nearestFold (x : ℚ) (best : ℤ) : List ℤ → ℤ
  | [] => best
  | v :: vs =>
    nearestFold x (if absQ (x - (v : ℚ)) < absQ (x - (best : ℚ)) then v else best) vs

/-- See the doc comment above `nearestFold`: `round_to_nearest` seeds the
fold with the first element. -/
def round_to_nearest (x : ℚ) : List ℤ → ℤ
  | [] => 0
  | v :: vs => nearestFold x v vs

/-- Embeds the numeric branch of `get_nearest_azimuth` (lines 449-451):
`int(round(float(azimuth) / 45.)) % 8 * 45` for an integer azimuth.
Python `%` on ints is `Int.emod` (non-negative remainder for a positive
modulus), and for an integer azimuth the quotient `azimuth / 45` is never an
exact half, so half-away-from-zero rounding (`pyRound`) has no tie to
resolve and float rounding noise (≥ 1/90 from any tie) cannot flip a case. -/
def get_nearest_azimuth (azimuth : ℤ) : ℤ :=
  pyRound ((azimuth : ℚ) / 45) % 8 * 45

/-! ## Partial-failure tolerance for heating/cooling collections
(`_get_systems_heating` lines 1297-1312, `_get_systems_cooling` lines
1373-1388).  Each unit's classification outcome (the result of
`get_heating_system_type` / `get_cooling_system_type`, which either returns a
record or raises a `TranslationError`) is abstracted as an `Except` value;
the loop collects successes, remembers that an error occurred, and re-raises
the most recent error only when no unit classified successfully. -/

/-- The sub-list of successfully classified units, in order
(the `htgsystems.append(htgsysd)` accumulations). -/
def classifiedOk {E A : Type} (results : List (Except E A)) : List A :=
  results.filterMap fun r => match r with | .ok a => some a | .error _ => none

/-- The classification errors in order of occurrence (each one bound to `ex`
by the `except TranslationError as ex` clause; the variable retains the most
recent one after the loop). -/
def classifiedErrs {E A : Type} (results : List (Except E A)) : List E :=
  results.filterMap fun r => match r with | .ok _ => none | .error e => some e

/-- Embeds the collection loop of `_get_systems_heating` /
`_get_systems_cooling` when no primary system is designated: swallow
per-unit failures, and `raise ex` (the last failure) only when
`has_..._translation_err` is set and the success list is empty. -/
def collectHvacSystems {E A : Type} (results : List (Except E A)) :
    Except E (List A) :=
  match (classifiedErrs results).getLast?, classifiedOk results with
  | some e, [] => .error e
  | _, _ => .ok (classifiedOk results)

/-! ## Bounds validation (`_validate_hescore_inputs`, lines 1592-1698).
The `InputOutOfBounds` exception carries the field name and the offending
value; values of the various numeric fields (ints, floats, dates-as-ordinals)
are all represented in `ℚ`. -/

/-- Embeds `do_bounds_check(fieldname, value, minincl, maxincl)`
(lines 1594-1596). -/
def do_bounds_check (fieldname : String) (value minincl maxincl : ℚ) :
    Except (String × ℚ) Unit :=
  if value < minincl ∨ value > maxincl then .error (fieldname, value) else .ok ()

/-- Embeds the `NumberofBedrooms` cap of `_get_building_about`
(lines 609-612): `if nbedrooms > 10: nbedrooms = 10`. -/
def clampNumberBedrooms (nbedrooms : ℤ) : ℤ :=
  if nbedrooms > 10 then 10 else nbedrooms

/-- Skylight validation record: the fields of `zone_skylight` consulted by the
validator (`skylight_method`, u-value and shgc are consulted only when the
area is positive and the method is the string `custom`). -/
structure SkylightV where
  skylight_area : ℚ
  skylight_method : String
  skylight_u_value : ℚ
  skylight_shgc : ℚ

/-- Window validation record: the fields of a `zone_window` consulted by the
validator. -/
structure WindowV where
  window_area : ℚ
  window_method : String
  window_u_value : ℚ
  window_shgc : ℚ

/-- The two efficiency methods the validator admits for an HVAC or DHW
system; the source `assert`s the method string is one of these two after
checking for the other. -/
inductive EffMethodV | user | shipment_weighted
deriving DecidableEq

/-- Heating/cooling system record as seen by the validator: only the method
tag and the method's numeric payload are consulted. -/
structure SystemV where
  efficiency_method : EffMethodV
  efficiency : ℚ
  year : ℤ

/-- Domestic-hot-water record as seen by the validator. -/
structure DhwV where
  dhwtype : String
  efficiency_method : EffMethodV
  energy_factor : ℚ
  year : ℤ

/-- The finished translator output record, restricted to the fields the
bounds validator consults.  Dates are Python `date.toordinal()` integers. -/
structure HesInputs where
  assessment_date : ℤ
  year_built : ℤ
  number_bedrooms : ℤ
  num_floor_above_grade : ℤ
  floor_to_ceiling_height : ℤ
  conditioned_floor_area : ℤ
  blower_door_test : Bool
  envelope_leakage : ℤ
  zone_roof : List SkylightV
  foundation_insulation_level : ℤ
  zone_wall : List WindowV
  heating : SystemV
  cooling : SystemV
  hvac_distribution : List ℤ
  domestic_hot_water : DhwV

/-- `dt.date(2010, 1, 1).toordinal()`. -/
def ordinal_2010_01_01 : ℤ := 733773

/-- The per-roof-zone skylight checks (the `for zone_roof in ...` loop,
lines 1629-1641). -/
def checkSkylights : List SkylightV → Except (String × ℚ) Unit
  | [] => .ok ()
  | z :: rest => do
    do_bounds_check ("skylight_area") z.skylight_area 0 300
    if z.skylight_area > 0 ∧ z.skylight_method = "custom" then
      do_bounds_check ("skylight_u_value") z.skylight_u_value (1/100) 5
      do_bounds_check ("skylight_shgc") z.skylight_shgc 0 1
    else pure ()
    checkSkylights rest

/-- The per-wall-zone window checks (the `for zone_wall in ...` loop,
lines 1647-1658). -/
def checkWindows : List WindowV → Except (String × ℚ) Unit
  | [] => .ok ()
  | w :: rest => do
    do_bounds_check ("window_area") w.window_area 0 999
    if w.window_area > 0 ∧ w.window_method = "custom" then
      do_bounds_check ("window_u_value") w.window_u_value (1/100) 5
      do_bounds_check ("window_shgc") w.window_shgc 0 1
    else pure ()
    checkWindows rest

/-- The duct-fraction checks (lines 1682-1685). -/
def checkDuctFractions : List ℤ → Except (String × ℚ) Unit
  | [] => .ok ()
  | f :: rest => do
    do_bounds_check ("hvac_distribution_fraction") (f : ℚ) 0 100
    checkDuctFractions rest

/-- Embeds `_validate_hescore_inputs` (lines 1592-1698): the fixed sequence
of bounds checks over the finished record, aborting at the first violation
(the `Except` bind short-circuits exactly as the raised exception does).
`today` is `dt.datetime.today()` as an ordinal, `this_year` its year. -/
def validate_hescore_inputs (today this_year : ℤ) (hi : HesInputs) :
    Except (String × ℚ) Unit := do
  do_bounds_check ("assessment_date") (hi.assessment_date : ℚ)
    (ordinal_2010_01_01 : ℚ) (today : ℚ)
  do_bounds_check ("year_built") (hi.year_built : ℚ) 1600 (this_year : ℚ)
  do_bounds_check ("number_bedrooms") (hi.number_bedrooms : ℚ) 1 10
  do_bounds_check ("num_floor_above_grade") (hi.num_floor_above_grade : ℚ) 1 4
  do_bounds_check ("floor_to_ceiling_height") (hi.floor_to_ceiling_height : ℚ) 6 12
  do_bounds_check ("conditioned_floor_area") (hi.conditioned_floor_area : ℚ) 250 25000
  if hi.blower_door_test then
    do_bounds_check ("envelope_leakage") (hi.envelope_leakage : ℚ) 0 25000
  else pure ()
  checkSkylights hi.zone_roof
  do_bounds_check ("foundation_insulation_level")
    (hi.foundation_insulation_level : ℚ) 0 19
  checkWindows hi.zone_wall
  (match hi.heating.efficiency_method with
   | .user => do_bounds_check ("heating_efficiency") hi.heating.efficiency (1/10) 20
   | .shipment_weighted =>
     do_bounds_check ("heating_year") (hi.heating.year : ℚ) 1970 (this_year : ℚ))
  (match hi.cooling.efficiency_method with
   | .user => do_bounds_check ("cooling_efficiency") hi.cooling.efficiency (1/10) 30
   | .shipment_weighted =>
     do_bounds_check ("cooling_year") (hi.cooling.year : ℚ) 1970 (this_year : ℚ))
  checkDuctFractions hi.hvac_distribution
  if hi.domestic_hot_water.dhwtype = "storage" ∨
      hi.domestic_hot_water.dhwtype = "heat_pump" then
    match hi.domestic_hot_water.efficiency_method with
    | .user =>
      do_bounds_check ("domestic_hot_water_energy_factor")
        hi.domestic_hot_water.energy_factor (1/10) 3
    | .shipment_weighted =>
      do_bounds_check ("domestic_hot_water_year")
        (hi.domestic_hot_water.year : ℚ) 1972 (this_year : ℚ)
  else pure ()

/-! ## Town-house shared-wall window check (`_get_building_zone_wall`,
lines 1209-1224).  Sides are the strings of `sidemap.values()`; the
`town_house_walls` value is a string such as `back_right_front` whose
underscore-separated words are the unshared sides. -/

/-- The four side names, `sidemap.values()`. -/
def sideNames : List String := ["front", "right", "back", "left"]

/-- Python `str.split('_')` on the underscore-joined `town_house_walls`
strings, written on the character list so that it evaluates by kernel
reduction. -/
def pySplitUnderscoreAux : List Char → List Char → List String
  | [], acc => [String.mk acc.reverse]
  | c :: cs, acc =>
    if c = '_' then String.mk acc.reverse :: pySplitUnderscoreAux cs []
    else pySplitUnderscoreAux cs (c :: acc)

/-- Python `town_house_walls.split('_')`. -/
def pySplitUnderscore (s : String) : List String :=
  pySplitUnderscoreAux s.data []

/-- Embeds the inner helper `windows_are_on_shared_walls` (lines 1210-1215):
true when some side outside `town_house_walls.split('_')` has a window
assigned to it.  `hasWindows side` models `len(hpxmlwindows[side]) > 0`. -/
def windows_are_on_shared_walls (hasWindows : String → Bool)
    (town_house_walls : String) : Bool :=
  (sideNames.filter
    (fun s => ¬ (pySplitUnderscore town_house_walls).contains s)).any hasWindows

/-- Embeds the town-house check (lines 1217-1224): on failure with the
`back_right_front` configuration, reassign `town_house_walls` to
`back_front_left` and re-check; raise the translation error if windows still
sit on a shared wall.  Returns the possibly-reassigned `town_house_walls`. -/
def checkTownHouseWindows (shape : String) (town_house_walls : String)
    (hasWindows : String → Bool) : Except String String :=
  if shape = "town_house" then
    if windows_are_on_shared_walls hasWindows town_house_walls then
      if town_house_walls = "back_right_front" then
        if windows_are_on_shared_walls hasWindows ("back_front_left") then
          .error ("The house has windows on shared walls.")
        else .ok ("back_front_left")
      else .error ("The house has windows on shared walls.")
    else .ok town_house_walls
  else .ok town_house_walls

/-! ## Wall classification (`get_wall_assembly_code`, lines 117-195). -/

/-- One `h:Insulation/h:Layer` element of an HPXML wall:
`InstallationType` text, presence of `InsulationMaterial/Rigid`, and the
`NominalRValue` (required by the float conversion at line 146/171/177). -/
structure InsLayer where
  installation_type : Option String
  is_rigid : Bool
  nominal_rvalue : ℚ

/-- An HPXML `Wall` element, restricted to what `get_wall_assembly_code`
reads: `name(h:WallType/*)`, the insulation layers, the two wood-stud flag
elements, and the `Siding` text. -/
structure HpxmlWall where
  wall_id : String
  wall_type : String
  layers : List InsLayer
  expanded_polystyrene_sheathing : Option Bool
  optimum_value_engineering : Option Bool
  siding : Option String

/-- The `sidingmap` dict (lines 123-133): HPXML siding → HEScore siding code,
`other` mapping to `None`. -/
def sidingmap : List (String × Option String) :=
  [("wood siding", some ("wo")), ("stucco", some ("st")),
   ("synthetic stucco", some ("st")), ("vinyl siding", some ("vi")),
   ("aluminum siding", some ("al")), ("brick veneer", some ("br")),
   ("asbestos siding", some ("wo")), ("fiber cement siding", some ("wo")),
   ("composite shingle siding", some ("wo")), ("masonite siding", some ("wo")),
   ("other", none)]

/-- A layer is counted as continuous rigid insulation when
`h:InsulationMaterial/h:Rigid` is present and `InstallationType` is
`continuous` (lines 142-144). -/
def isContinuousRigid (l : InsLayer) : Bool :=
  l.is_rigid && l.installation_type = some ("continuous")

/-- Python `'%02d' % n` for the non-negative nominal R-values appearing in
assembly codes. -/
def pad2 (n : ℤ) : String :=
  if 0 ≤ n ∧ n < 10 then ("0") ++ toString n else toString n

/-- The assembly-code format `'ew%s%02d%s' % (wallconstype, rvalue,
sidingtype)` (line 195). -/
def ewCode (wallconstype : String) (rvalue : ℤ) (sidingtype : String) :
    String :=
  "ew" ++ wallconstype ++ pad2 rvalue ++ sidingtype

/-- Embeds `get_wall_assembly_code` (lines 117-195).  The wood-stud loop
(lines 140-146) sets `has_rigid_ins` from the continuous-rigid layers and
sums the nominal R-values of all other layers; the `filter`/`any` pair below
computes the same two values.  `Except.error` stands for the raised
`TranslationError`s; the out-of-`try` dict lookup at line 183 (CMU with a
siding missing from `sidingmap`) raises an uncaught `KeyError`, modelled as
an error as well. -/
def get_wall_assembly_code (w : HpxmlWall) : Except String String := do
  let lookupSiding : Option (Option String) :=
    w.siding.bind fun s => (sidingmap.find? (fun p => p.1 = s)).map (·.2)
  if w.wall_type = "WoodStud" then
    let has_rigid_ins := w.layers.any isContinuousRigid
    let cavity_rvalue :=
      ((w.layers.filter (fun l => ¬ isContinuousRigid l)).map
        (·.nominal_rvalue)).sum
    let (wallconstype, rvalue) :=
      if w.expanded_polystyrene_sheathing = some true ∨ has_rigid_ins then
        ("ps", round_to_nearest cavity_rvalue [0, 3, 7, 11, 13, 15, 19, 21])
      else if w.optimum_value_engineering = some true then
        ("ov", round_to_nearest cavity_rvalue [19, 21, 27, 33, 38])
      else
        ("wf", round_to_nearest cavity_rvalue [0, 3, 7, 11, 13, 15, 19, 21])
    match lookupSiding with
    | none => .error ("Wall (" ++ w.wall_id ++
        "): Exterior finish information is missing")
    | some none => .error ("Wall (" ++ w.wall_id ++
        "): There is no HEScore wall siding equivalent for the HPXML option")
    | some (some sidingtype) => .ok (ewCode wallconstype rvalue sidingtype)
  else if w.wall_type = "StructuralBrick" then
    let rvalue :=
      round_to_nearest ((w.layers.map (·.nominal_rvalue)).sum) [0, 5, 10]
    .ok (ewCode ("br") rvalue ("nn"))
  else if w.wall_type = "ConcreteMasonryUnit" ∨ w.wall_type = "Stone" then
    let rvalue :=
      round_to_nearest ((w.layers.map (·.nominal_rvalue)).sum) [0, 3, 6]
    match w.siding with
    | none => .ok (ewCode ("cb") rvalue ("nn"))
    | some s =>
      match sidingmap.find? (fun p => p.1 = s) with
      | none => .error ("KeyError")
      | some p =>
        if p.2 = some ("st") ∨ p.2 = some ("br") then
          .ok (ewCode ("cb") rvalue ((p.2).getD ("")))
        else .error ("Wall (" ++ w.wall_id ++
          "): is a CMU and needs a siding of stucco, brick, or none")
  else if w.wall_type = "StrawBale" then
    .ok (ewCode ("sb") 0 ("st"))
  else .error ("Wall type (" ++ w.wall_type ++ ") not supported")

/-! ## Wall-side aggregation (`_get_building_zone_wall`, lines 1086-1153):
the effective-R-value table and the per-side combination step.  A wall
record `walld` carries its assembly code; the combination step recovers the
construction type, nominal R-value and exterior finish by slicing the
fixed-width code string (`[2:4]`, `[4:6]`, `[6:8]`), which is the identity
on the fields `get_wall_assembly_code` put there; the record below carries
the three fields directly. -/

/-- A `walld` dict entry of one HPXML wall assigned to a side:
`assembly_code` split into its three fields, plus `area` (`None` when the
HPXML wall has no `h:Area`). -/
structure WallD where
  wid : String
  constype : String
  rvalue : ℤ
  extfinish : String
  area : Option ℚ

/-- `wall_const_types` (line 1087). -/
def wall_const_types : List String := ["wf", "ps", "ov", "br", "cb", "sb"]

/-- `wall_ext_finish_types` (line 1088). -/
def wall_ext_finish_types : List String := ["wo", "st", "vi", "al", "br", "nn"]

/-- The `wall_eff_rvalues` nested dict (lines 1089-1115): construction type →
exterior finish → nominal R-value → effective (center-of-cavity) R-value.
Keys are listed in the order of the source tuples. -/
def wall_eff_rvalues : String → String → List (ℤ × ℚ)
  | "wf", "wo" => [(0, 36/10), (3, 57/10), (7, 97/10), (11, 137/10),
                   (13, 157/10), (15, 177/10), (19, 217/10), (21, 237/10)]
  | "wf", "st" => [(0, 23/10), (3, 44/10), (7, 84/10), (11, 124/10),
                   (13, 144/10), (15, 164/10), (19, 204/10), (21, 224/10)]
  | "wf", "vi" => [(0, 22/10), (3, 43/10), (7, 83/10), (11, 123/10),
                   (13, 143/10), (15, 163/10), (19, 203/10), (21, 223/10)]
  | "wf", "al" => [(0, 21/10), (3, 42/10), (7, 82/10), (11, 122/10),
                   (13, 142/10), (15, 162/10), (19, 202/10), (21, 222/10)]
  | "wf", "br" => [(0, 29/10), (3, 5), (7, 9), (11, 13),
                   (13, 15), (15, 17), (19, 21), (21, 23)]
  | "ps", "wo" => [(11, 171/10), (13, 191/10), (15, 211/10), (19, 251/10),
                   (21, 271/10)]
  | "ps", "st" => [(11, 164/10), (13, 184/10), (15, 204/10), (19, 244/10),
                   (21, 264/10)]
  | "ps", "vi" => [(11, 163/10), (13, 183/10), (15, 203/10), (19, 243/10),
                   (21, 263/10)]
  | "ps", "al" => [(11, 162/10), (13, 182/10), (15, 202/10), (19, 242/10),
                   (21, 262/10)]
  | "ps", "br" => [(11, 17), (13, 19), (15, 21), (19, 25), (21, 27)]
  | "ov", "wo" => [(19, 21), (21, 23), (27, 29), (33, 35), (38, 40)]
  | "ov", "st" => [(19, 203/10), (21, 223/10), (27, 283/10), (33, 343/10),
                   (38, 393/10)]
  | "ov", "vi" => [(19, 201/10), (21, 221/10), (27, 281/10), (33, 341/10),
                   (38, 391/10)]
  | "ov", "al" => [(19, 201/10), (21, 221/10), (27, 281/10), (33, 341/10),
                   (38, 391/10)]
  | "ov", "br" => [(19, 209/10), (21, 229/10), (27, 289/10), (33, 349/10),
                   (38, 399/10)]
  | "br", "nn" => [(0, 29/10), (5, 79/10), (10, 128/10)]
  | "cb", "st" => [(0, 41/10), (3, 57/10), (6, 85/10)]
  | "cb", "br" => [(0, 56/10), (3, 72/10), (6, 10)]
  | "cb", "nn" => [(0, 4), (3, 56/10), (6, 83/10)]
  | "sb", "st" => [(0, 588/10)]
  | _, _ => []

/-- Dict lookup `wall_eff_rvalues[const_type][ext_finish][rvalue]`
(`none` = `KeyError`). -/
def wallEffLookup (constype extfinish : String) (rvalue : ℤ) : Option ℚ :=
  ((wall_eff_rvalues constype extfinish).find? (fun p => p.1 = rvalue)).map
    (·.2)

/-- Python `max(keys, key=f)` as CPython computes it: scan keeping the
current best and replace it only on a strictly greater value, so the first
key attaining the maximum wins. -/
def maxKeyFold (f : String → ℚ) (best : String) : List String → String
  | [] => best
  | k :: ks => maxKeyFold f (if f k > f best then k else best) ks

/-- See `maxKeyFold`: `none` only on the empty key list, which never occurs
(`max` of an empty sequence raises). -/
def maxKeyBy (f : String → ℚ) : List String → Option String
  | [] => none
  | k :: ks => some (maxKeyFold f k ks)

/-- Python `min(items, key=lambda x: x[0])` over the `(nominal, effective)`
pairs of one table row (line 1144): left-to-right scan keeping the current
best, replaced only on a strictly smaller nominal value. -/
def minItemFold (best : ℤ × ℚ) : List (ℤ × ℚ) → ℤ × ℚ
  | [] => best
  | p :: ps => minItemFold (if p.1 < best.1 then p else best) ps

/-- See `minItemFold`; `none` only for an empty table row, which models the
uncaught `KeyError`/empty-`min` crash. -/
def minItemByKey : List (ℤ × ℚ) → Option (ℤ × ℚ)
  | [] => none
  | p :: ps => some (minItemFold p ps)

/-- Python `min(keys, key=lambda x: abs(rvalueavgnom - x))` (lines
1150-1151): the first catalog nominal value nearest to `x`, computed with
the same left-to-right scan as `round_to_nearest`. -/
def nearestKey (x : ℚ) : List ℤ → Option ℤ
  | [] => none
  | k :: ks => some (nearestFold x k ks)

/-- The `roffset` computation (lines 1141-1145): the effective value at
nominal 0 when the table row has a 0 entry, otherwise `eff - nominal` of the
row's smallest nominal entry.  `none` models the uncaught `KeyError` when
the dominant (construction, finish) pair has no table row at all. -/
def wallRoffset (constype extfinish : String) : Option ℚ :=
  match wallEffLookup constype extfinish 0 with
  | some e0 => some e0
  | none =>
    (minItemByKey (wall_eff_rvalues constype extfinish)).map
      fun p => p.2 - (p.1 : ℚ)

/-- The closing arithmetic of the per-side combination (lines 1141-1151):
given the dominant construction type and finish and the area-weighted mean
effective R-value, subtract the base offset and snap to the nearest catalog
nominal value. -/
def snapWallRvalue (constype extfinish : String) (rvalueavgeff : ℚ) :
    Option ℤ := do
  let roffset ← wallRoffset constype extfinish
  nearestKey (rvalueavgeff - roffset)
    ((wall_eff_rvalues constype extfinish).map (·.1))

/-- The dict update `d[key] += area` over a total map initialised to zero on
the catalog keys (`dict(zip(keys, [0]*len(keys)))`, lines 1126-1127;
`get_wall_assembly_code` only emits catalog keys, so the `KeyError` case of
`+=` cannot arise). -/
def addArea (f : String → ℚ) (key : String) (area : ℚ) : String → ℚ :=
  fun x => if x = key then f x + area else f x

/-- The area-resolution step for one side (lines 1121-1125): a single wall
with no area gets area 1.0; several walls where any lacks an area is a
translation error (`none`). -/
def resolveWallAreas (walls : List WallD) : Option (List (WallD × ℚ)) :=
  match walls with
  | [w] => some [(w, w.area.getD 1)]
  | _ =>
    if walls.any (fun w => w.area = none) then none
    else some (walls.map fun w => (w, w.area.getD 0))

/-- The accumulation loop over one side's walls (lines 1128-1138), producing
`(wallra, walltotalarea, wall_const_type_areas, wall_ext_finish_areas)`.
The loop adds to four accumulators; addition order is immaterial, so the
fold runs from the right.  `none` models the `KeyError` when a wall's
assembly code has no entry in `wall_eff_rvalues`. -/
def wallTotals : List (WallD × ℚ) →
    Option (ℚ × ℚ × (String → ℚ) × (String → ℚ))
  | [] => some (0, 0, fun _ => 0, fun _ => 0)
  | (w, a) :: rest => do
    let (wallra, walltotalarea, ctAreas, efAreas) ← wallTotals rest
    let eff_rvalue ← wallEffLookup w.constype w.extfinish w.rvalue
    some (wallra + a * eff_rvalue, walltotalarea + a,
      addArea ctAreas w.constype a, addArea efAreas w.extfinish a)

/-- Embeds the per-side wall combination (lines 1118-1152): resolve areas,
accumulate area-weighted effective R-values and per-category areas, pick the
dominant construction type and exterior finish by total area, recover the
mean nominal value and snap it to the catalog, and emit the side's
`wall_assembly_code`. -/
def sideWallCombine (walls : List WallD) : Option String := do
  let resolved ← resolveWallAreas walls
  let (wallra, walltotalarea, ctAreas, efAreas) ← wallTotals resolved
  let const_type ← maxKeyBy ctAreas wall_const_types
  let ext_finish ← maxKeyBy efAreas wall_ext_finish_types
  let comb_rvalue ← snapWallRvalue const_type ext_finish
    (wallra / walltotalarea)
  some (ewCode const_type comb_rvalue ext_finish)

/-! ## Duct consolidation (`_get_systems_hvac_distribution`, lines
1512-1532): the tail of the function, starting from the combined
`ductfracs` map (duct location → combined share), the per-location
insulation flags `hescore_ductloc_has_ins`, and the sealed-share map
`issealedfracs`.  The combined dict has distinct keys, one per location. -/

/-- One output `hvac_distribution` entry (lines 1525-1532). -/
structure DuctBucket where
  name : String
  location : String
  fraction : ℤ
  insulated : Bool
  sealed : Bool
deriving DecidableEq

/-- The output loop `for i, location in enumerate(top3locations, 1)`
(lines 1525-1532), over the kept locations paired with their integer
percentages. -/
def buildDuctBuckets (hasIns : String → Bool) (sealedFlag : String → Bool) :
    ℕ → List (String × ℤ) → List DuctBucket
  | _, [] => []
  | i, (loc, frac) :: rest =>
    { name := "duct" ++ toString i, location := loc, fraction := frac,
      insulated := hasIns loc, sealed := sealedFlag loc } ::
      buildDuctBuckets hasIns sealedFlag (i + 1) rest

/-- Embeds lines 1512-1532: sort the locations by combined share descending
and keep the top three (`sorted(..., reverse=True)[0:3]`, with the
stable-sorted association list standing for the key list plus dict
lookups), turn each sealed share into a flag by rounding its ratio to the
kept share, renormalise the kept shares to integer percentages, add the
rounding remainder `100 - sum` to the largest bucket, and emit the bucket
list. -/
def consolidateDuctFracs (ductfracs : List (String × ℚ))
    (hasIns : String → Bool) (issealedfracs : String → ℚ) :
    List DuctBucket :=
  let top3 : List (String × ℚ) :=
    (ductfracs.mergeSort (fun a b => decide (b.2 ≤ a.2))).take 3
  let sealedFlag : String → Bool := fun loc =>
    match top3.find? (fun p => p.1 = loc) with
    | some p => pyRound (issealedfracs loc / p.2) ≠ 0
    | none => false
  let normalization_denominator := (top3.map Prod.snd).sum
  let percents : List ℤ :=
    top3.map fun p => pyRound (p.2 / normalization_denominator * 100)
  let adjusted : List ℤ :=
    match percents with
    | [] => []
    | p :: rest => (p + (100 - percents.sum)) :: rest
  buildDuctBuckets hasIns sealedFlag 1 (List.zip (top3.map Prod.fst) adjusted)

/-! ## HVAC system combination (`_get_systems_heating`, lines 1314-1363).
Heating units are grouped by `(type, fuel_primary, efficiency_method)`; the
group dict is an association list in insertion order.  Strings mirror the
source's tag values (`central_furnace`, `heat_pump`, `user`,
`shipment_weighted`, ...). -/

/-- A classified heating unit: the dict returned by
`get_heating_system_type` (lines 271-315).  `efficiency` is meaningful when
`efficiency_method = some ("user")`, `year` when it is
`some ("shipment_weighted")`; an electric furnace/baseboard has method
`none`. -/
structure HtgSysD where
  fuel_primary : String
  htype : String
  efficiency_method : Option String
  efficiency : ℚ
  year : ℤ
  capacity : Option ℚ

/-- `htgsysd[self.eff_method_map[method]]` (line 1335) with
`eff_method_map = {'user': 'efficiency', 'shipment_weighted': 'year'}`:
the numeric payload selected by the group's efficiency method.  Only called
under the `is not None` guard, and classification only produces the two
method strings. -/
def effMethodPayload (d : HtgSysD) : Option String → ℚ
  | some ("user") => d.efficiency
  | _ => (d.year : ℚ)

/-- The capacity-defaulting step (lines 1314-1320): if some unit lacks a
capacity, a sole unit defaults to 1.0, otherwise the translation fails. -/
def resolveCapacities (systems : List HtgSysD) :
    Except String (List (HtgSysD × ℚ)) :=
  if systems.any (fun d => d.capacity = none) then
    match systems with
    | [d] => .ok [(d, (d.capacity.getD 1))]
    | _ => .error ("If a primary heating system is not defined, each heating system must have a capacity")
  else .ok (systems.map fun d => (d, d.capacity.getD 0))

/-- One `combhtgsys` accumulator dict (lines 1326-1336). -/
structure CombHtgSys where
  totalcapacity : ℚ
  n : ℕ
  acc : ℚ
  htype : String
  fuel_primary : String
  efficiency_method : Option String

/-- Folding one unit into its group (lines 1324-1336): find the group with
the unit's `(type, fuel_primary, efficiency_method)` key, creating it at the
end of the list on a `KeyError`; add the capacity, and accumulate
`payload * capacity` into `sum` when the method is not `None`. -/
def addToGroups : List CombHtgSys → HtgSysD × ℚ → List CombHtgSys
  | [], (d, cap) =>
    [{ totalcapacity := cap, n := 1,
       acc := if d.efficiency_method.isSome
         then effMethodPayload d d.efficiency_method * cap else 0,
       htype := d.htype, fuel_primary := d.fuel_primary,
       efficiency_method := d.efficiency_method }]
  | g :: gs, (d, cap) =>
    if g.htype = d.htype ∧ g.fuel_primary = d.fuel_primary ∧
        g.efficiency_method = d.efficiency_method then
      { g with
        totalcapacity := g.totalcapacity + cap
        n := g.n + 1
        acc := if g.efficiency_method.isSome
          then g.acc + effMethodPayload d d.efficiency_method * cap
          else g.acc } :: gs
    else g :: addToGroups gs (d, cap)

/-- A finalised group (lines 1338-1353): the accumulator with `sum`/`n`
deleted and the method's result value filled in (the `efficiency_method`
key itself is deleted when it was `None`). -/
structure FinalHtgGroup where
  totalcapacity : ℚ
  htype : String
  fuel_primary : String
  efficiency_method : Option String
  efficiency : Option ℚ
  year : Option ℤ

/-- Finalising one group (lines 1338-1353): `user` groups get the
capacity-weighted efficiency rounded to 1 decimal for heat-pump types and
2 otherwise; `shipment_weighted` groups get the rounded weighted year. -/
def finalizeHtgGroup (g : CombHtgSys) : FinalHtgGroup :=
  match g.efficiency_method with
  | some ("user") =>
    let htg_round_decimal_places : ℕ :=
      if g.htype = "heat_pump" ∨ g.htype = "gchp" then 1 else 2
    { totalcapacity := g.totalcapacity, htype := g.htype,
      fuel_primary := g.fuel_primary, efficiency_method := some ("user"),
      efficiency :=
        some (pyRoundTo htg_round_decimal_places (g.acc / g.totalcapacity)),
      year := none }
  | some m =>
    { totalcapacity := g.totalcapacity, htype := g.htype,
      fuel_primary := g.fuel_primary, efficiency_method := some m,
      efficiency := none, year := some (pyRound (g.acc / g.totalcapacity)) }
  | none =>
    { totalcapacity := g.totalcapacity, htype := g.htype,
      fuel_primary := g.fuel_primary, efficiency_method := none,
      efficiency := none, year := none }

/-- Python `max(groups, key=lambda x: x['totalcapacity'])`: left-to-right
scan, the first group attaining the maximal total capacity wins. -/
def maxGroupFold (best : FinalHtgGroup) : List FinalHtgGroup → FinalHtgGroup
  | [] => best
  | g :: gs => maxGroupFold (if g.totalcapacity > best.totalcapacity then g else best) gs

/-- See `maxGroupFold`; `none` exactly when no equipment classified. -/
def maxGroupByCapacity : List FinalHtgGroup → Option FinalHtgGroup
  | [] => none
  | g :: gs => some (maxGroupFold g gs)

/-- The final `sys_heating` dict (lines 1355-1361): its possible keys as
`Option` fields.  `htype = "none"` with every other field absent models the
`{'type': 'none'}` record.  Note that `totalcapacity` is deleted from the
chosen group (line 1357) and no `capacity` key is ever inserted. -/
structure SysHeatingOut where
  htype : String
  fuel_primary : Option String
  efficiency_method : Option String
  efficiency : Option ℚ
  year : Option ℤ
  capacity : Option ℚ
deriving DecidableEq

/-- Embeds lines 1314-1363 of `_get_systems_heating`: resolve capacities,
group by `(type, fuel, efficiency_method)`, finalise each group, keep the
group with greatest total capacity, delete its `totalcapacity`, and clamp a
shipment-weighted year below 1970 up to 1970. -/
def combineHeatingSystems (htgsystems : List HtgSysD) :
    Except String SysHeatingOut := do
  let withCaps ← resolveCapacities htgsystems
  let groups := (withCaps.foldl addToGroups []).map finalizeHtgGroup
  match maxGroupByCapacity groups with
  | none => .ok { htype := "none"
                  fuel_primary := none
                  efficiency_method := none
                  efficiency := none
                  year := none
                  capacity := none }
  | some g =>
    let year :=
      if g.efficiency_method = some ("shipment_weighted") then
        g.year.map fun y => if y < 1970 then 1970 else y
      else g.year
    .ok { htype := g.htype
          fuel_primary := some g.fuel_primary
          efficiency_method := g.efficiency_method
          efficiency := g.efficiency
          year := year
          capacity := none }

/-! ## Roof-zone aggregation (`_get_building_zone_roof`, lines 674-868),
modelled from the per-attic records `atticd` built by lines 706-786
onwards:  combination by roof type when more than two attics exist, sorting
by area, truncation to two zones, and assembly-code emission. -/

/-- `attic_floor_rvalues` (line 688). -/
def attic_floor_rvalues : List ℤ := [0, 3, 6, 9, 11, 19, 21, 25, 30, 38, 44, 49, 60]

/-- The `roof_center_of_cavity_rvalues` nested dict (lines 689-704):
construction type → exterior finish → nominal → center-of-cavity R-value. -/
def roof_center_of_cavity_rvalues : String → String → List (ℤ × ℚ)
  | "wf", "co" => [(0, 27/10), (11, 136/10), (13, 156/10), (15, 176/10),
                   (19, 216/10), (21, 236/10)]
  | "wf", "wo" => [(0, 32/10), (11, 141/10), (13, 161/10), (15, 181/10),
                   (19, 221/10), (21, 241/10), (27, 301/10)]
  | "wf", "rc" => [(0, 22/10), (11, 132/10), (13, 152/10), (15, 172/10),
                   (19, 212/10), (21, 232/10), (27, 292/10)]
  | "wf", "lc" => [(0, 23/10), (11, 132/10), (13, 152/10), (15, 172/10),
                   (19, 212/10), (21, 232/10), (27, 292/10)]
  | "wf", "tg" => [(0, 23/10), (11, 132/10), (13, 152/10), (15, 172/10),
                   (19, 212/10), (21, 232/10), (27, 292/10)]
  | "rb", "co" => [(0, 5)]
  | "rb", "wo" => [(0, 55/10)]
  | "rb", "rc" => [(0, 45/10)]
  | "rb", "lc" => [(0, 46/10)]
  | "rb", "tg" => [(0, 46/10)]
  | "ps", "co" => [(0, 68/10), (11, 178/10), (13, 198/10), (15, 218/10)]
  | "ps", "wo" => [(0, 73/10), (11, 183/10), (13, 203/10), (15, 223/10),
                   (19, 263/10), (21, 283/10)]
  | "ps", "rc" => [(0, 64/10), (11, 174/10), (13, 194/10), (15, 214/10),
                   (19, 254/10), (21, 274/10)]
  | "ps", "lc" => [(0, 64/10), (11, 174/10), (13, 194/10), (15, 214/10),
                   (19, 254/10), (21, 274/10)]
  | "ps", "tg" => [(0, 64/10), (11, 174/10), (13, 194/10), (15, 214/10),
                   (19, 254/10), (21, 274/10)]
  | _, _ => []

/-- One `atticd` record as of line 788: identifier of the attached roof,
area, HEScore roof type (`vented_attic` or `cath_ceiling`), roof color,
exterior finish, construction type, and the two center-of-cavity R-values
computed by lines 776-786. -/
structure AtticD where
  roofid : String
  roof_area : ℚ
  rooftype : String
  roofcolor : String
  extfinish : String
  roofconstype : String
  roof_coc_rvalue : ℚ
  attic_floor_coc_rvalue : ℚ
deriving DecidableEq

/-- One output `zone_roof` entry (lines 856-866). -/
structure ZoneRoofItem where
  roof_name : String
  roof_area : ℚ
  roof_assembly_code : String
  roof_color : String
  roof_type : String
  roofids : List String
  ceiling_assembly_code : Option String
deriving DecidableEq

/-- Python `max(roof_area_by_cat, key=lambda x: roof_area_by_cat[x])` over
an association list built in first-encounter order: left-to-right scan, the
first entry attaining the maximal accumulated area wins. -/
def maxAssocFold (best : String × ℚ) : List (String × ℚ) → String × ℚ
  | [] => best
  | p :: ps => maxAssocFold (if p.2 > best.2 then p else best) ps

/-- See `maxAssocFold`; `none` only on an empty dict, which the grouping
never produces. -/
def maxAssocByValue : List (String × ℚ) → Option (String × ℚ)
  | [] => none
  | p :: ps => some (maxAssocFold p ps)

/-- The `try/except KeyError` dict accumulation `d[k] += v` /
`d[k] = v` with keys kept in first-encounter order. -/
def assocAdd (l : List (String × ℚ)) (k : String) (v : ℚ) :
    List (String × ℚ) :=
  if (l.find? (fun p => p.1 = k)).isSome then
    l.map fun p => if p.1 = k then (p.1, p.2 + v) else p
  else l ++ [(k, v)]

/-- The per-category area accumulation `roof_area_by_cat` (lines 814-819)
for one grouping key. -/
def roofAreaByCat (f : AtticD → String) (group : List AtticD) :
    List (String × ℚ) :=
  group.foldl (fun acc a => assocAdd acc (f a) a.roof_area) []

/-- The dominant category for one attic key (line 820); `none` only on an
empty group, which the grouping never produces. -/
def dominantCat (f : AtticD → String) (group : List AtticD) : Option String :=
  (maxAssocByValue (roofAreaByCat f group)).map (·.1)

/-- One step of the `attics_by_rooftype` grouping (lines 797-801): append
the attic to its roof type's group, creating the group on a `KeyError`. -/
def groupStep (acc : List (String × List AtticD)) (a : AtticD) :
    List (String × List AtticD) :=
  if (acc.find? (fun p => p.1 = a.rooftype)).isSome then
    acc.map fun p => if p.1 = a.rooftype then (p.1, p.2 ++ [a]) else p
  else acc ++ [(a.rooftype, [a])]

/-- Grouping `attics_by_rooftype` (lines 796-801): association list from
roof type to the attics carrying it, keys in first-encounter order, each
group's attics in list order. -/
def atticsByRooftype (atticds : List AtticD) :
    List (String × List AtticD) :=
  atticds.foldl groupStep []

/-- Combining one roof-type group (lines 806-834): sum the areas, pick the
dominant construction type / finish / color / roof type by area, collect the
roof ids, and area-weight the two center-of-cavity R-values. -/
def combineAtticGroup (group : List AtticD) : AtticD :=
  let roof_area := (group.map (·.roof_area)).sum
  { roofid := ""
    roof_area := roof_area
    rooftype := (dominantCat (·.rooftype) group).getD ("")
    roofcolor := (dominantCat (·.roofcolor) group).getD ("")
    extfinish := (dominantCat (·.extfinish) group).getD ("")
    roofconstype := (dominantCat (·.roofconstype) group).getD ("")
    roof_coc_rvalue :=
      (group.map (fun a => a.roof_coc_rvalue * a.roof_area)).sum / roof_area
    attic_floor_coc_rvalue :=
      (group.map (fun a => a.attic_floor_coc_rvalue * a.roof_area)).sum /
        roof_area }

/-- The `_roofids` sets carried along (lines 792, 823): the ids of the
group's attics. -/
def groupRoofids (group : List AtticD) : List String := group.map (·.roofid)

/-- Building one `zone_roof_item` (lines 845-866): recover the nominal roof
R-value by subtracting the offset (the center-of-cavity value at nominal 0)
and snapping to the nearest table key, snap the attic-floor value after
subtracting its fixed 0.5 offset, and emit the codes. -/
def buildZoneRoofItem (i : ℕ) (roofids : List String) (atticd : AtticD) :
    ZoneRoofItem :=
  let row := roof_center_of_cavity_rvalues atticd.roofconstype atticd.extfinish
  let roffset := ((row.find? (fun p => p.1 = 0)).map (·.2)).getD 0
  let roof_rvalue :=
    (nearestKey (atticd.roof_coc_rvalue - roffset) (row.map (·.1))).getD 0
  let attic_floor_rvalue :=
    (nearestKey (atticd.attic_floor_coc_rvalue - 1/2) attic_floor_rvalues).getD 0
  { roof_name := "roof" ++ toString i
    roof_area := atticd.roof_area
    roof_assembly_code :=
      "rf" ++ atticd.roofconstype ++ pad2 roof_rvalue ++ atticd.extfinish
    roof_color := atticd.roofcolor
    roof_type := atticd.rooftype
    roofids := roofids
    ceiling_assembly_code :=
      if atticd.rooftype ≠ ("cath_ceiling") then
        some ("ecwf" ++ pad2 attic_floor_rvalue)
      else none }

/-- The output loop `for i, atticd in enumerate(atticds[0:2], 1)`
(lines 844-866). -/
def buildZoneRoof : ℕ → List (List String × AtticD) → List ZoneRoofItem
  | _, [] => []
  | i, (ids, a) :: rest => buildZoneRoofItem i ids a :: buildZoneRoof (i + 1) rest

/-- Embeds lines 788-868 of `_get_building_zone_roof` given the per-attic
records: fail when no attic exists; with at most two attics keep each as its
own zone; with more than two, group by roof type and combine each group;
sort by area descending (Python's stable `list.sort` with `reverse=True`,
modelled by the stable `mergeSort`); keep the largest two and emit the zone
records. -/
def zoneRoofFromAttics (atticds : List AtticD) :
    Except String (List ZoneRoofItem) := do
  if atticds.isEmpty then
    .error ("There are no Attic elements in this building.")
  else
    let combined : List (List String × AtticD) :=
      if atticds.length ≤ 2 then
        atticds.map fun a => ([a.roofid], a)
      else
        (atticsByRooftype atticds).map fun p =>
          (groupRoofids p.2, combineAtticGroup p.2)
    let sortedAtticds :=
      combined.mergeSort (fun a b => decide (b.2.roof_area ≤ a.2.roof_area))
    .ok (buildZoneRoof 1 (sortedAtticds.take 2))

end HesTranslate

namespace HesTranslate

theorem pyRound_intCast_div_fortyfive (x : ℤ) :
    pyRound ((x : ℚ) / 45) = (2 * x + 45) / 90 := by
  unfold pyRound
  rcases le_or_lt 0 x with hx | hx
  · rw [if_neg (not_lt.mpr (div_nonneg (by exact_mod_cast hx) (by norm_num)))]
    have h1 : (x : ℚ) / 45 + 1 / 2 = ((2 * x + 45 : ℤ) : ℚ) / ((90 : ℕ) : ℚ) := by
      push_cast; ring
    rw [h1, Rat.floor_intCast_div_natCast]
    norm_num
  · rw [if_pos (by
      have h2 : (x : ℚ) < 0 := by exact_mod_cast hx
      exact div_neg_of_neg_of_pos h2 (by norm_num))]
    have h1 : -((x : ℚ) / 45) + 1 / 2 = ((45 - 2 * x : ℤ) : ℚ) / ((90 : ℕ) : ℚ) := by
      push_cast; ring
    rw [h1, Rat.floor_intCast_div_natCast]
    have h3 : ((90 : ℕ) : ℤ) = 90 := by norm_num
    rw [h3]
    omega

theorem get_nearest_azimuth_closed_form (x : ℤ) :
    get_nearest_azimuth x = (2 * x + 45) / 90 % 8 * 45 := by
  unfold get_nearest_azimuth
  rw [pyRound_intCast_div_fortyfive]

/-- C6: the divide-by-45, round-half-up, modulo-8, multiply-by-45 azimuth
binning of `get_nearest_azimuth` (lines 449-451) is idempotent on every
integer azimuth and invariant under adding any whole number of turns. -/
theorem get_nearest_azimuth_idempotent_periodic (x k : ℤ) :
    get_nearest_azimuth (get_nearest_azimuth x) = get_nearest_azimuth x ∧
    get_nearest_azimuth (x + 360 * k) = get_nearest_azimuth x := by
  rw [get_nearest_azimuth_closed_form x,
    get_nearest_azimuth_closed_form ((2 * x + 45) / 90 % 8 * 45),
    get_nearest_azimuth_closed_form (x + 360 * k)]
  omega

/-- C9: `_get_building_about` caps `NumberofBedrooms` at 10 (lines 609-612),
so the emitted `number_bedrooms` is the source value capped at 10 and the
validator's `[1, 10]` bedroom check (lines 1608-1610) can never fire for a
too-large source value. -/
theorem clampNumberBedrooms_cap_no_oob (n : ℤ) :
    clampNumberBedrooms n = min n 10 ∧
    (10 < n →
      do_bounds_check ("number_bedrooms") ((clampNumberBedrooms n : ℤ) : ℚ) 1 10 =
        .ok ()) := by
  unfold clampNumberBedrooms do_bounds_check
  constructor
  · split <;> omega
  · intro h
    rw [if_pos h]
    rw [if_neg (by push_cast; norm_num)]

/-- Witness for the bedroom-cap theorem at the concrete source value 12. -/
theorem clampNumberBedrooms_cap_no_oob_witness :
    clampNumberBedrooms 12 = min 12 10 ∧
    do_bounds_check ("number_bedrooms") ((clampNumberBedrooms 12 : ℤ) : ℚ) 1 10 =
      .ok () :=
  ⟨(clampNumberBedrooms_cap_no_oob 12).1,
   (clampNumberBedrooms_cap_no_oob 12).2 (by norm_num)⟩

/-- C5: `_validate_hescore_inputs` runs its checks in the fixed source
order and aborts at the first violation.  For any finished record whose
five checks preceding the floor-area check pass and whose
`conditioned_floor_area` is 100, validation returns the out-of-bounds error
naming `conditioned_floor_area` with value 100 — regardless of every later
field, which shows no later check runs and no violations accumulate. -/
theorem validate_first_oob_is_cfa (today this_year : ℤ) (hi : HesInputs)
    (h1 : ordinal_2010_01_01 ≤ hi.assessment_date)
    (h2 : hi.assessment_date ≤ today)
    (h3 : 1600 ≤ hi.year_built) (h4 : hi.year_built ≤ this_year)
    (h5 : 1 ≤ hi.number_bedrooms) (h6 : hi.number_bedrooms ≤ 10)
    (h7 : 1 ≤ hi.num_floor_above_grade) (h8 : hi.num_floor_above_grade ≤ 4)
    (h9 : 6 ≤ hi.floor_to_ceiling_height)
    (h10 : hi.floor_to_ceiling_height ≤ 12)
    (hcfa : hi.conditioned_floor_area = 100) :
    validate_hescore_inputs today this_year hi =
      .error ("conditioned_floor_area", 100) := by
  have c1 : ¬((hi.assessment_date : ℚ) < (ordinal_2010_01_01 : ℚ) ∨
      (hi.assessment_date : ℚ) > (today : ℚ)) := by
    simp only [not_or, not_lt]
    exact ⟨by exact_mod_cast h1, by exact_mod_cast h2⟩
  have c2 : ¬((hi.year_built : ℚ) < 1600 ∨
      (hi.year_built : ℚ) > (this_year : ℚ)) := by
    simp only [not_or, not_lt]
    exact ⟨by exact_mod_cast h3, by exact_mod_cast h4⟩
  have c3 : ¬((hi.number_bedrooms : ℚ) < 1 ∨ (hi.number_bedrooms : ℚ) > 10) := by
    simp only [not_or, not_lt]
    exact ⟨by exact_mod_cast h5, by exact_mod_cast h6⟩
  have c4 : ¬((hi.num_floor_above_grade : ℚ) < 1 ∨
      (hi.num_floor_above_grade : ℚ) > 4) := by
    simp only [not_or, not_lt]
    exact ⟨by exact_mod_cast h7, by exact_mod_cast h8⟩
  have c5 : ¬((hi.floor_to_ceiling_height : ℚ) < 6 ∨
      (hi.floor_to_ceiling_height : ℚ) > 12) := by
    simp only [not_or, not_lt]
    exact ⟨by exact_mod_cast h9, by exact_mod_cast h10⟩
  have d1 : ¬(hi.assessment_date < ordinal_2010_01_01 ∨
      today < hi.assessment_date) := by omega
  have d2 : ¬(hi.year_built < 1600 ∨ this_year < hi.year_built) := by omega
  have e2 : ¬((hi.year_built : ℚ) < 1600 ∨ this_year < hi.year_built) := by
    simp only [not_or, not_lt]
    exact ⟨by exact_mod_cast h3, h4⟩
  simp [validate_hescore_inputs, do_bounds_check, c1, c2, c3, c4, c5, d1, d2,
    e2, hcfa]
  norm_num
  rfl

/-- Witness for the validator theorem: a concrete record with
`conditioned_floor_area = 100` (today = 2026-10-12 as an ordinal,
`this_year` = 2026). -/
theorem validate_first_oob_is_cfa_witness :
    validate_hescore_inputs 739901 2026
      { assessment_date := 735000, year_built := 1975, number_bedrooms := 3,
        num_floor_above_grade := 2, floor_to_ceiling_height := 8,
        conditioned_floor_area := 100, blower_door_test := false,
        envelope_leakage := 0, zone_roof := [], foundation_insulation_level := 0,
        zone_wall := [],
        heating := { efficiency_method := .user, efficiency := 92/100, year := 0 },
        cooling := { efficiency_method := .user, efficiency := 13, year := 0 },
        hvac_distribution := [],
        domestic_hot_water :=
          { dhwtype := "storage", efficiency_method := .user,
            energy_factor := 9/10, year := 0 } } =
      .error ("conditioned_floor_area", 100) :=
  validate_first_oob_is_cfa 739901 2026 _ (by norm_num [ordinal_2010_01_01])
    (by norm_num) (by norm_num) (by norm_num) (by norm_num) (by norm_num)
    (by norm_num) (by norm_num) (by norm_num) (by norm_num) (by norm_num)

/-- C4: with no designated primary system, `_get_systems_heating` /
`_get_systems_cooling` (lines 1297-1312 and 1373-1388) swallow per-unit
classification failures: the collection loop raises exactly when every unit
failed, surfacing the last failure (`raise ex`); otherwise translation
proceeds on the list of successfully classified units. -/
theorem collectHvacSystems_partial_failure {E A : Type}
    (results : List (Except E A)) (e : E) :
    (collectHvacSystems results = .error e ↔
      (classifiedOk results = [] ∧ (classifiedErrs results).getLast? = some e))
    ∧ (classifiedOk results ≠ [] →
      collectHvacSystems results = .ok (classifiedOk results)) := by
  unfold collectHvacSystems
  rcases h1 : (classifiedErrs results).getLast? with _ | e' <;>
    rcases h2 : classifiedOk results with _ | ⟨a, as⟩ <;>
      simp [h1, h2]

/-- Witness: with two failing units and no success, the collection surfaces
the last failure. -/
theorem collectHvacSystems_partial_failure_witness :
    collectHvacSystems [Except.error ("err one"), Except.error ("err two"),
      (Except.ok 5 : Except String ℕ), Except.error ("err three")] =
      .ok [5] :=
  (collectHvacSystems_partial_failure
      [Except.error ("err one"), Except.error ("err two"),
        (Except.ok 5 : Except String ℕ), Except.error ("err three")]
      ("err three")).2 (by decide)

/-- C10: the town-house shared-wall window check
(`_get_building_zone_wall`, lines 1209-1224).  For a town house the
translation error fires exactly when some window sits on a shared side and,
in the `back_right_front` case, still sits on a shared side after the
fallback reassignment to `back_front_left`; when the reassignment resolves
the clash, `town_house_walls` is rewritten to `back_front_left`. -/
theorem checkTownHouseWindows_spec (thw : String) (hasW : String → Bool) :
    (checkTownHouseWindows ("town_house") thw hasW =
        .error ("The house has windows on shared walls.") ↔
      (windows_are_on_shared_walls hasW thw ∧
        (thw = "back_right_front" →
          windows_are_on_shared_walls hasW ("back_front_left"))))
    ∧ ((windows_are_on_shared_walls hasW thw ∧ thw = "back_right_front" ∧
        ¬ windows_are_on_shared_walls hasW ("back_front_left")) →
      checkTownHouseWindows ("town_house") thw hasW = .ok ("back_front_left")) := by
  unfold checkTownHouseWindows
  rw [if_pos rfl]
  by_cases h2 : thw = "back_right_front"
  · subst h2
    by_cases h1 : windows_are_on_shared_walls hasW ("back_right_front") <;>
      by_cases h3 : windows_are_on_shared_walls hasW ("back_front_left") <;>
        simp [h1, h3]
  · by_cases h1 : windows_are_on_shared_walls hasW thw <;> simp [h1, h2]

/-- Witness: windows only on the left side of a `back_right_front` town
house are legal after the fallback reassignment to `back_front_left`. -/
theorem checkTownHouseWindows_spec_witness :
    checkTownHouseWindows ("town_house") "back_right_front"
      (fun s => s == "left") = .ok ("back_front_left") :=
  (checkTownHouseWindows_spec ("back_right_front") (fun s => s == "left")).2
    ⟨by decide, rfl, by decide⟩

/-- C8: a wood-stud wall with one non-continuous insulation layer of nominal
R-value 13 and one continuous rigid layer, sided with vinyl, classifies as
insulated sheathing (`ps`) with cavity R-value snapped to 13 and yields the
assembly code `ewps13vi` (`get_wall_assembly_code`, lines 137-165, 195). -/
theorem wall_assembly_code_ps13_vinyl :
    get_wall_assembly_code
      { wall_id := "wall1"
        wall_type := "WoodStud"
        layers := [{ installation_type := some ("cavity"), is_rigid := false,
                     nominal_rvalue := 13 },
                   { installation_type := some ("continuous"), is_rigid := true,
                     nominal_rvalue := 5 }]
        expanded_polystyrene_sheathing := none
        optimum_value_engineering := none
        siding := some ("vinyl siding") } = .ok ("ewps13vi") := by
  norm_num [get_wall_assembly_code, isContinuousRigid, sidingmap,
    round_to_nearest, nearestFold, absQ, ewCode, pad2, List.find?]
  rfl

/-- The two-furnace scenario of C7: same type, fuel and `user` efficiency
method, capacities 50000 and 30000, efficiencies 0.95 and 0.90. -/
def htgScenarioC7 : List HtgSysD :=
  [{ fuel_primary := "natural_gas", htype := "central_furnace",
     efficiency_method := some ("user"), efficiency := 95/100, year := 0,
     capacity := some 50000 },
   { fuel_primary := "natural_gas", htype := "central_furnace",
     efficiency_method := some ("user"), efficiency := 9/10, year := 0,
     capacity := some 30000 }]

/-- C7 counterexample: for the two-furnace scenario the combined record
carries no capacity at all — `totalcapacity` is deleted at line 1357 and a
`capacity` key is never inserted — so the claim that the combined system
"reports capacity 80000" fails at this input. -/
theorem combineHeatingSystems_no_capacity_key :
    (combineHeatingSystems htgScenarioC7).map (fun out => out.capacity) =
      .ok none ∧
    (Except.ok (some (80000 : ℚ)) : Except String (Option ℚ)) ≠ .ok none := by
  constructor
  · have hs1 : ¬("central_furnace" = "heat_pump" ∨ "central_furnace" = "gchp") := by
      decide
    norm_num [combineHeatingSystems, htgScenarioC7, resolveCapacities,
      addToGroups, finalizeHtgGroup, maxGroupByCapacity, maxGroupFold,
      effMethodPayload, pyRoundTo, pyRound, Except.map, Option.some_ne_none,
      Option.isSome, List.foldl, bind, Except.bind, hs1]
  · simp

/-- C7 (amended): for the two-furnace scenario the combined heating system
reports the capacity-weighted efficiency
`round((0.95*50000 + 0.90*30000) / 80000, 2) = 0.93`; the summed capacity
80000 serves only as the internal weighting denominator and is deleted, so
the emitted record has no capacity field (lines 1322-1361). -/
theorem combineHeatingSystems_weighted_efficiency :
    combineHeatingSystems htgScenarioC7 =
      .ok { htype := "central_furnace"
            fuel_primary := some ("natural_gas")
            efficiency_method := some ("user")
            efficiency := some (93/100)
            year := none
            capacity := none } := by
  have hs1 : ¬("central_furnace" = "heat_pump" ∨ "central_furnace" = "gchp") := by
    decide
  norm_num [combineHeatingSystems, htgScenarioC7, resolveCapacities,
    addToGroups, finalizeHtgGroup, maxGroupByCapacity, maxGroupFold,
    effMethodPayload, pyRoundTo, pyRound, Option.some_ne_none, Option.isSome,
    List.foldl, bind, Except.bind, hs1]

theorem buildDuctBuckets_length (hasIns sealedFlag : String → Bool) :
    ∀ (i : ℕ) (l : List (String × ℤ)),
      (buildDuctBuckets hasIns sealedFlag i l).length = l.length := by
  intro i l
  induction l generalizing i with
  | nil => rfl
  | cons p rest ih => simpa [buildDuctBuckets] using ih (i + 1)

theorem buildDuctBuckets_fractions (hasIns sealedFlag : String → Bool) :
    ∀ (i : ℕ) (l : List (String × ℤ)),
      (buildDuctBuckets hasIns sealedFlag i l).map DuctBucket.fraction =
        l.map Prod.snd := by
  intro i l
  induction l generalizing i with
  | nil => rfl
  | cons p rest ih => simpa [buildDuctBuckets] using ih (i + 1)

/-- C2 (amended): for every combined duct-location map with at least one
location (each with a positive combined share, so no division by zero
occurs), the emitted `hvac_distribution` list has at most 3 buckets and its
integer `fraction` fields sum to exactly 100, the rounding remainder having
been added to the largest bucket (lines 1512-1532).  When no air
distribution system exists at all the map is empty and the translator emits
an empty list, whose fraction sum is 0, not 100. -/
theorem consolidateDuctFracs_atMost3_sum100 (ductfracs : List (String × ℚ))
    (hasIns : String → Bool) (issealedfracs : String → ℚ)
    (hpos : ∀ p ∈ ductfracs, 0 < p.2) (hne : ductfracs ≠ []) :
    (consolidateDuctFracs ductfracs hasIns issealedfracs).length ≤ 3 ∧
    ((consolidateDuctFracs ductfracs hasIns issealedfracs).map
      DuctBucket.fraction).sum = 100 := by
  have hlen3 :
      ((ductfracs.mergeSort (fun a b => decide (b.2 ≤ a.2))).take 3).length ≤ 3 := by
    rw [List.length_take]
    exact min_le_left _ _
  have hnetake :
      ((ductfracs.mergeSort (fun a b => decide (b.2 ≤ a.2))).take 3) ≠ [] := by
    have hms : (ductfracs.mergeSort (fun a b => decide (b.2 ≤ a.2))).length =
        ductfracs.length := List.length_mergeSort _
    intro hempty
    have h2 := congrArg List.length hempty
    rw [List.length_take, hms] at h2
    simp only [List.length_nil] at h2
    rcases ductfracs with _ | ⟨p, rest⟩
    · exact hne rfl
    · simp at h2
  rcases htake : (ductfracs.mergeSort (fun a b => decide (b.2 ≤ a.2))).take 3
    with _ | ⟨p, rest⟩
  · exact absurd htake hnetake
  · have hlen3h : (p :: rest).length ≤ 3 := htake ▸ hlen3
    unfold consolidateDuctFracs
    rw [htake]
    constructor
    · rw [buildDuctBuckets_length]
      rw [List.length_zip]
      simp only [List.map_cons, List.length_map, List.length_cons]
      simp only [List.length_cons] at hlen3h
      omega
    · rw [buildDuctBuckets_fractions]
      rw [List.map_snd_zip _ _ (by simp)]
      simp only [List.map_cons, List.sum_cons]
      omega

/-- Witness for the duct-consolidation theorem: the 60/40 conditioned-space /
unconditioned-basement scenario. -/
theorem consolidateDuctFracs_atMost3_sum100_witness :
    (consolidateDuctFracs [("cond_space", 3/5), ("uncond_basement", 2/5)]
      (fun _ => false) (fun _ => 0)).length ≤ 3 ∧
    ((consolidateDuctFracs [("cond_space", 3/5), ("uncond_basement", 2/5)]
      (fun _ => false) (fun _ => 0)).map DuctBucket.fraction).sum = 100 :=
  consolidateDuctFracs_atMost3_sum100
    [("cond_space", 3/5), ("uncond_basement", 2/5)] (fun _ => false)
    (fun _ => 0)
    (by intro p hp; fin_cases hp <;> norm_num)
    (by simp)

/-- C2 counterexample to the unconditional claim: a building with heating or
cooling but no air-distribution ducts reaches the consolidation step with an
empty location map and the emitted `hvac_distribution` list is empty, so its
fraction fields sum to 0, not 100. -/
theorem consolidateDuctFracs_empty_sum_zero :
    consolidateDuctFracs [] (fun _ => false) (fun _ => 0) = [] ∧
    ((consolidateDuctFracs [] (fun _ => false) (fun _ => 0)).map
      DuctBucket.fraction).sum ≠ 100 := by
  refine ⟨?_, ?_⟩ <;>
    simp [consolidateDuctFracs, List.mergeSort_nil, buildDuctBuckets]

theorem buildZoneRoof_length :
    ∀ (i : ℕ) (l : List (List String × AtticD)),
      (buildZoneRoof i l).length = l.length := by
  intro i l
  induction l generalizing i with
  | nil => rfl
  | cons p rest ih => simpa [buildZoneRoof] using ih (i + 1)

theorem buildZoneRoofItem_area (i : ℕ) (ids : List String) (a : AtticD) :
    (buildZoneRoofItem i ids a).roof_area = a.roof_area := rfl

theorem buildZoneRoof_chain :
    ∀ (i : ℕ) (l : List (List String × AtticD)),
      l.Pairwise (fun a b => b.2.roof_area ≤ a.2.roof_area) →
      (buildZoneRoof i l).Chain' (fun a b => b.roof_area ≤ a.roof_area) := by
  intro i l
  induction l generalizing i with
  | nil => intro _; exact List.chain'_nil
  | cons p rest ih =>
    intro hpw
    rcases List.pairwise_cons.mp hpw with ⟨hhead, htail⟩
    rcases rest with _ | ⟨q, rs⟩
    · simp [buildZoneRoof, List.chain'_singleton]
    · refine List.Chain'.cons ?_ (ih (i + 1) (by exact htail))
      simpa [buildZoneRoofItem_area] using hhead q (List.mem_cons_self q rs)

theorem groupStep_length_le (acc : List (String × List AtticD)) (a : AtticD) :
    acc.length ≤ (groupStep acc a).length := by
  unfold groupStep
  split
  · rw [List.length_map]
  · simp

theorem foldl_groupStep_length_le :
    ∀ (l : List AtticD) (acc : List (String × List AtticD)),
      acc.length ≤ (l.foldl groupStep acc).length := by
  intro l
  induction l with
  | nil => intro acc; simp
  | cons a rest ih =>
    intro acc
    exact le_trans (groupStep_length_le acc a) (ih (groupStep acc a))

theorem atticsByRooftype_ne_nil (atticds : List AtticD)
    (h : atticds ≠ []) : atticsByRooftype atticds ≠ [] := by
  rcases atticds with _ | ⟨a, rest⟩
  · exact absurd rfl h
  · unfold atticsByRooftype
    intro hempty
    have h1 : (groupStep [] a).length ≤ ((a :: rest).foldl groupStep []).length := by
      rw [List.foldl_cons]
      exact foldl_groupStep_length_le rest (groupStep [] a)
    rw [hempty] at h1
    simp [groupStep] at h1

/-- C3: for every successful run of the roof-zone aggregation
(`_get_building_zone_roof`, lines 788-868) the emitted `zone_roof` list has
length 1 or 2 and is sorted by descending roof area: with more than two
attics the records are first grouped by roof type and combined per group,
then every candidate list is stable-sorted by area descending and truncated
to the first two entries. -/
theorem zoneRoofFromAttics_len_sorted (atticds : List AtticD)
    (zr : List ZoneRoofItem) (h : zoneRoofFromAttics atticds = .ok zr) :
    (zr.length = 1 ∨ zr.length = 2) ∧
    zr.Chain' (fun a b => b.roof_area ≤ a.roof_area) := by
  unfold zoneRoofFromAttics at h
  by_cases hne : atticds.isEmpty
  · rw [if_pos hne] at h
    exact absurd h (by simp)
  · rw [if_neg hne] at h
    have hnil : atticds ≠ [] := by
      intro hx
      rw [hx] at hne
      exact hne rfl
    injection h with h
    subst h
    set combined : List (List String × AtticD) :=
      (if atticds.length ≤ 2 then
        atticds.map fun a => ([a.roofid], a)
      else
        (atticsByRooftype atticds).map fun p =>
          (groupRoofids p.2, combineAtticGroup p.2)) with hcombined
    have hcne : combined ≠ [] := by
      rw [hcombined]
      split
      · intro hx
        exact hnil (List.map_eq_nil_iff.mp hx)
      · intro hx
        exact atticsByRooftype_ne_nil atticds hnil (List.map_eq_nil_iff.mp hx)
    constructor
    · rw [buildZoneRoof_length, List.length_take, List.length_mergeSort]
      have : 1 ≤ combined.length := List.length_pos.mpr hcne
      omega
    · have hpw := @List.sorted_mergeSort (List String × AtticD)
        (fun a b => decide (b.2.roof_area ≤ a.2.roof_area))
        (by
          intro a b c hab hbc
          simp only [decide_eq_true_eq] at hab hbc ⊢
          exact le_trans hbc hab)
        (by
          intro a b
          simp only [Bool.or_eq_true, decide_eq_true_eq]
          exact le_total b.2.roof_area a.2.roof_area)
        combined
      have hpw2 := List.Pairwise.sublist (List.take_sublist 2 _) hpw
      exact buildZoneRoof_chain 1 _
        (hpw2.imp (by intro a b hab; exact decide_eq_true_eq.mp hab))

/-- The single-attic building used to witness the roof-zone theorem. -/
def atticWitness : AtticD :=
  { roofid := "roof-1", roof_area := 1000, rooftype := "vented_attic",
    roofcolor := "medium", extfinish := "co", roofconstype := "wf",
    roof_coc_rvalue := 136/10, attic_floor_coc_rvalue := 115/10 }

/-- The zone record the translator emits for `atticWitness`. -/
def zoneRoofWitnessItem : ZoneRoofItem :=
  { roof_name := "roof1", roof_area := 1000, roof_assembly_code := "rfwf11co",
    roof_color := "medium", roof_type := "vented_attic",
    roofids := ["roof-1"], ceiling_assembly_code := some ("ecwf11") }

set_option maxHeartbeats 1000000 in
theorem zoneRoofFromAttics_witness_eval :
    zoneRoofFromAttics [atticWitness] = .ok [zoneRoofWitnessItem] := by
  unfold zoneRoofFromAttics
  rw [if_neg (by simp)]
  rw [if_pos (by simp)]
  simp only [List.map_cons, List.map_nil]
  rw [List.mergeSort_singleton]
  simp only [List.take_succ_cons, List.take_nil, buildZoneRoof,
    buildZoneRoofItem, atticWitness]
  norm_num [roof_center_of_cavity_rvalues, nearestKey, nearestFold, absQ,
    attic_floor_rvalues, List.find?]
  norm_num [zoneRoofWitnessItem, pad2]
  refine ⟨by decide, by decide, by decide, by decide⟩

/-- Witness for the roof-zone theorem at a concrete single-attic building. -/
theorem zoneRoofFromAttics_len_sorted_witness :
    (([zoneRoofWitnessItem] : List ZoneRoofItem).length = 1 ∨
      ([zoneRoofWitnessItem] : List ZoneRoofItem).length = 2) ∧
    ([zoneRoofWitnessItem] : List ZoneRoofItem).Chain'
      (fun a b => b.roof_area ≤ a.roof_area) :=
  zoneRoofFromAttics_len_sorted [atticWitness] [zoneRoofWitnessItem]
    zoneRoofFromAttics_witness_eval

theorem maxKeyFold_unique (f : String → ℚ) :
    ∀ (ks : List String) (best k₀ : String),
      (best = k₀ ∨ f best < f k₀) →
      (best = k₀ ∨ k₀ ∈ ks) →
      (∀ k ∈ ks, k ≠ k₀ → f k < f k₀) →
      maxKeyFold f best ks = k₀ := by
  intro ks
  induction ks with
  | nil =>
    intro best k₀ h1 h2 _
    rcases h2 with rfl | h2
    · rfl
    · exact absurd h2 (List.not_mem_nil k₀)
  | cons k ks ih =>
    intro best k₀ h1 h2 h3
    unfold maxKeyFold
    by_cases hk : k = k₀
    · subst hk
      by_cases hcond : f k > f best
      · rw [if_pos hcond]
        exact ih k k (Or.inl rfl) (Or.inl rfl)
          (fun k2 hk2 hk2ne => h3 k2 (List.mem_cons_of_mem _ hk2) hk2ne)
      · rcases h1 with rfl | hlt
        · rw [if_neg hcond]
          exact ih best best (Or.inl rfl) (Or.inl rfl)
            (fun k2 hk2 hk2ne => h3 k2 (List.mem_cons_of_mem _ hk2) hk2ne)
        · exact absurd hlt hcond
    · have hklt : f k < f k₀ := h3 k (List.mem_cons_self k ks) hk
      have h2' : best = k₀ ∨ k₀ ∈ ks := by
        rcases h2 with rfl | h2
        · exact Or.inl rfl
        · rcases List.mem_cons.mp h2 with rfl | h2
          · exact absurd rfl hk
          · exact Or.inr h2
      by_cases hcond : f k > f best
      · rw [if_pos hcond]
        refine ih k k₀ (Or.inr hklt) ?_
          (fun k2 hk2 hk2ne => h3 k2 (List.mem_cons_of_mem _ hk2) hk2ne)
        rcases h2' with hbk | h2'
        · exfalso
          rw [hbk] at hcond
          exact absurd hcond (not_lt.mpr hklt.le)
        · exact Or.inr h2'
      · rw [if_neg hcond]
        exact ih best k₀ h1 h2'
          (fun k2 hk2 hk2ne => h3 k2 (List.mem_cons_of_mem _ hk2) hk2ne)

theorem maxKeyBy_unique (f : String → ℚ) (keys : List String) (k₀ : String)
    (hmem : k₀ ∈ keys) (hmax : ∀ k ∈ keys, k ≠ k₀ → f k < f k₀) :
    maxKeyBy f keys = some k₀ := by
  rcases keys with _ | ⟨k, ks⟩
  · exact absurd hmem (List.not_mem_nil k₀)
  · simp only [maxKeyBy, Option.some.injEq]
    refine maxKeyFold_unique f ks k k₀ ?_ ?_
      (fun k2 hk2 hk2ne => hmax k2 (List.mem_cons_of_mem _ hk2) hk2ne)
    · by_cases hk : k = k₀
      · exact Or.inl hk
      · exact Or.inr (hmax k (List.mem_cons_self k ks) hk)
    · rcases List.mem_cons.mp hmem with rfl | h
      · exact Or.inl rfl
      · exact Or.inr h

theorem sideWallCombine_single (w : WallD) (a e : ℚ)
    (harea : w.area = some a) (ha : 0 < a)
    (hct : w.constype ∈ wall_const_types)
    (hef : w.extfinish ∈ wall_ext_finish_types)
    (he : wallEffLookup w.constype w.extfinish w.rvalue = some e) :
    sideWallCombine [w] =
      (snapWallRvalue w.constype w.extfinish e).bind
        (fun r => some (ewCode w.constype r w.extfinish)) := by
  have h1 : resolveWallAreas [w] = some [(w, a)] := by
    simp [resolveWallAreas, harea]
  have h2 : wallTotals [(w, a)] =
      some (0 + a * e, 0 + a, addArea (fun _ => 0) w.constype a,
        addArea (fun _ => 0) w.extfinish a) := by
    simp [wallTotals, he]
  have hdomct :
      maxKeyBy (addArea (fun _ => 0) w.constype a) wall_const_types =
        some w.constype := by
    refine maxKeyBy_unique _ _ _ hct ?_
    intro k _ hkne
    simpa [addArea, hkne] using ha
  have hdomef :
      maxKeyBy (addArea (fun _ => 0) w.extfinish a) wall_ext_finish_types =
        some w.extfinish := by
    refine maxKeyBy_unique _ _ _ hef ?_
    intro k _ hkne
    simpa [addArea, hkne] using ha
  have hdiv : (0 + a * e) / (0 + a) = e := by
    rw [zero_add, zero_add]
    exact mul_div_cancel_left₀ e ha.ne'
  simp only [sideWallCombine, h1, h2, hdomct, hdomef, hdiv, Option.bind_some,
    Option.some_bind, Option.bind_eq_bind]

set_option maxHeartbeats 4000000 in
theorem snapWallRvalue_roundtrip :
    ∀ ct ∈ wall_const_types, ∀ ef ∈ wall_ext_finish_types,
    ∀ p ∈ wall_eff_rvalues ct ef, ¬(ct = "cb" ∧ p.1 = 6) →
      snapWallRvalue ct ef p.2 = some p.1 := by
  intro ct hct
  fin_cases hct <;>
    · intro ef hef
      fin_cases hef <;>
        · intro p hp hbad
          simp only [wall_eff_rvalues] at hp
          fin_cases hp <;>
            · try exact (hbad ⟨rfl, rfl⟩).elim
              try norm_num [snapWallRvalue, wallRoffset, wallEffLookup,
                wall_eff_rvalues, nearestKey, nearestFold, minItemByKey,
                minItemFold, absQ, List.find?]

/-- Convenience constructor for a `walld` record. -/
def mkWallD (wid constype : String) (rvalue : ℤ) (extfinish : String)
    (area : Option ℚ) : WallD :=
  { wid := wid
    constype := constype
    rvalue := rvalue
    extfinish := extfinish
    area := area }

/-- C1 (amended): feeding the per-side wall combination a single instance
whose nominal R-value is a catalog value with effective value `e` for its
construction-type/finish pair returns that same nominal value — the emitted
`wall_assembly_code` carries the original nominal R-value — for every
catalog entry except concrete-masonry-unit/stone (`cb`) walls at nominal 6,
where the recovered mean nominal value (about 4.3-4.4) lies nearer to
catalog value 3 than to 6 and the code drifts down to 3. -/
theorem sideWallCombine_roundtrip (wid ct ef : String) (r : ℤ) (e a : ℚ)
    (ha : 0 < a) (hct : ct ∈ wall_const_types)
    (hef : ef ∈ wall_ext_finish_types)
    (he : wallEffLookup ct ef r = some e) (hbad : ¬(ct = "cb" ∧ r = 6)) :
    sideWallCombine [mkWallD wid ct r ef (some a)] =
      some (ewCode ct r ef) := by
  rw [sideWallCombine_single (mkWallD wid ct r ef (some a)) a e rfl ha hct
    hef he]
  simp only [mkWallD]
  have hq : ∃ q, (wall_eff_rvalues ct ef).find? (fun p => p.1 = r) = some q ∧
      q.2 = e := by
    unfold wallEffLookup at he
    rcases hfind : (wall_eff_rvalues ct ef).find? (fun p => p.1 = r) with _ | q
    · rw [hfind] at he
      exact absurd he (by simp)
    · exact ⟨q, hfind, by rw [hfind] at he; simpa using he⟩
  rcases hq with ⟨q, hfind, hqe⟩
  have hmem : q ∈ wall_eff_rvalues ct ef := List.mem_of_find?_eq_some hfind
  have hkey : q.1 = r := by simpa using List.find?_some hfind
  have hsnap := snapWallRvalue_roundtrip ct hct ef hef q hmem
    (by rw [hkey]; exact hbad)
  rw [← hqe, hsnap, hkey]
  rfl

/-- Witness for the round-trip theorem: a lone wood-frame R-13 vinyl-sided
wall of area 200 keeps its nominal value, emitting `ewwf13vi`. -/
theorem sideWallCombine_roundtrip_witness :
    sideWallCombine [mkWallD ("w1") ("wf") 13 ("vi") (some 200)] =
      some (ewCode ("wf") 13 ("vi")) :=
  sideWallCombine_roundtrip ("w1") ("wf") ("vi") 13 (143/10) 200
    (by norm_num) (by decide) (by decide)
    (by norm_num [wallEffLookup, wall_eff_rvalues, List.find?])
    (by simp)

/-- C1 counterexample: a lone concrete-masonry-unit wall with stucco siding
and catalog nominal R-value 6 (assembly code `ewcb06st`) does not survive
the normalization round trip: the emitted side code is `ewcb03st`, so the
nominal value drifts from 6 to 3. -/
theorem sideWallCombine_cb6_drifts :
    sideWallCombine [mkWallD ("wall1") ("cb") 6 ("st") (some 100)] =
      some ("ewcb03st") ∧
    sideWallCombine [mkWallD ("wall1") ("cb") 6 ("st") (some 100)] ≠
      some (ewCode ("cb") 6 ("st")) := by
  have heval : sideWallCombine [mkWallD ("wall1") ("cb") 6 ("st")
      (some 100)] = some ("ewcb03st") := by
    rw [sideWallCombine_single (mkWallD ("wall1") ("cb") 6 ("st") (some 100))
      100 (85/10) rfl
      (by norm_num) (by decide) (by decide)
      (by norm_num [mkWallD, wallEffLookup, wall_eff_rvalues, List.find?])]
    norm_num [mkWallD, snapWallRvalue, wallRoffset, wallEffLookup,
      wall_eff_rvalues, nearestKey, nearestFold, minItemByKey, minItemFold,
      absQ, List.find?, ewCode, pad2]
    decide
  exact ⟨heval, by rw [heval]; decide⟩

end HesTranslate
